import Mathlib

/-!
Verification of `manage-thorium.py`, a script that installs, updates or
removes the Thorium browser on Debian-based systems.

The script is a linear sequence of I/O wrappers.  We embed it shallowly:
every observable action (a printed message, a subprocess invocation, a
network download) becomes an `Event`; each Python function becomes a pure
Lean function from its inputs (including the outcomes of the external world:
subprocess exit codes, the HTTP status and asset list of the GitHub API
response, the success of the package download) to the list of events it
emits plus its return value.  A Python exception that escapes a function is
modelled by an explicit error outcome.
-/

namespace ManageThorium

/-- The characters Python's `str.split()` and `str.strip()` treat as
whitespace. -/
def pyIsSpace (c : Char) : Bool :=
  c = ' ' ∨ c = '\t' ∨ c = '\n' ∨ c = '\r' ∨ c = '\x0b' ∨ c = '\x0c'

/-- Worker for `pySplitWs`: scan the characters, accumulating the current
field in reverse. -/
def splitWsAux : List Char → List Char → List String
  | [], acc => if acc = [] then [] else [String.mk acc.reverse]
  | c :: cs, acc =>
      if pyIsSpace c then
        if acc = [] then splitWsAux cs []
        else String.mk acc.reverse :: splitWsAux cs []
      else splitWsAux cs (c :: acc)

/-- Python `str.split()` with no separator: split on runs of whitespace,
discarding empty fields. -/
def pySplitWs (s : String) : List String :=
  splitWsAux s.data []

/-- Worker for `pySplitChar`. -/
def splitCharAux (sep : Char) : List Char → List Char → List String
  | [], acc => [String.mk acc.reverse]
  | c :: cs, acc =>
      if c = sep then String.mk acc.reverse :: splitCharAux sep cs []
      else splitCharAux sep cs (c :: acc)

/-- Python `s.split(sep)` for a one-character separator: keeps empty
fields and always returns at least one field. -/
def pySplitChar (s : String) (sep : Char) : List String :=
  splitCharAux sep s.data []

/-- Python `str.strip()`: drop leading and trailing whitespace. -/
def pyStrip (s : String) : String :=
  String.mk (((s.data.dropWhile pyIsSpace).reverse.dropWhile pyIsSpace).reverse)

/-- Python `s.startswith(p)`. -/
def pyStartsWith (s p : String) : Bool :=
  p.data.isPrefixOf s.data

/-- Python `s.endswith(p)`. -/
def pyEndsWith (s p : String) : Bool :=
  p.data.isSuffixOf s.data

/-- Python `url.split('/')[-1]`: the final path segment.  The split always
returns a non-empty list, so the `[-1]` index never fails. -/
def pyLastSegment (url : String) : String :=
  (pySplitChar url '/').getLastD ""

/-- Python `os.path.join a b` for the cases the script exercises:
an absolute `b` wins; otherwise the parts are joined with `/` unless `a`
is empty or already ends in `/`. -/
def os_path_join (a b : String) : String :=
  if pyStartsWith b "/" then b
  else if a = "" then b
  else if pyEndsWith a "/" then a ++ b
  else a ++ "/" ++ b

/-- `latest_deb_url.split('/')[-1].split('_')[1]` (line 144 of the script).
The `[1]` index can fail (Python `IndexError`), hence the `Option`. -/
def extract_latest_version (url : String) : Option String :=
  (pySplitChar (pyLastSegment url) '_').get? 1

/-- One observable action of the script.

* `msg s` — a `print` of the fixed string `s`;
* `msgAlready v` — `print(f"Latest version {v} is already installed.")`;
* `msgUpdating a b` — `print(f"Updating Thorium from version {a} to {b}...")`;
* `msgUrl u` — `print("Latest .deb release URL:", u)`;
* `msgInstalled p` — `print(f"Installed {p}")`;
* `download url dest` — the streaming GET of `url` performed by
  `download_file` with destination folder `dest`;
* `run argv` — a `subprocess.run(argv, check=True)` invocation. -/
inductive Event where
  | msg (s : String)
  | msgAlready (latest : String)
  | msgUpdating (fromV : String) (toV : String)
  | msgUrl (url : String)
  | msgInstalled (path : String)
  | download (url : String) (dest : String)
  | run (argv : List String)
  deriving DecidableEq, Repr

/-- Whether the script's run of `main` returned normally or died with an
uncaught Python exception of the given name. -/
inductive Outcome where
  | ok
  | exc (e : String)
  deriving DecidableEq, Repr

/-- `e` is a call to an external effectful collaborator: a download or a
subprocess invocation (as opposed to a mere print). -/
def isEffect : Event → Bool
  | Event.download _ _ => true
  | Event.run _ => true
  | _ => false

/-- Outcome of `subprocess.run(["thorium-browser", "--version"], ...)`:
either stdout of a zero-exit run, or one of the two caught exceptions. -/
inductive ProbeResult where
  | ok (stdout : String)
  | calledProcessError
  | fileNotFound
  deriving DecidableEq, Repr

/-- Return value of `get_installed_version`: the parsed optional version,
or an uncaught exception. -/
inductive ProbeOut where
  | val (v : Option String)
  | err (e : String)
  deriving DecidableEq, Repr

/-- `get_installed_version` (lines 33–48).  On a zero-exit probe the stdout
is stripped; if it starts with `"Thorium"` the second whitespace field is
returned — Python's `version_line.split()[1]` raises `IndexError` when
there is no second field, and that exception is not caught.  The two caught
subprocess exceptions print a message and yield `None`. -/
def get_installed_version : ProbeResult → List Event × ProbeOut
  | ProbeResult.ok stdout =>
      ([],
       if pyStartsWith (pyStrip stdout) "Thorium" then
         match (pySplitWs (pyStrip stdout)).get? 1 with
         | some v => ProbeOut.val (some v)
         | none => ProbeOut.err "IndexError"
       else ProbeOut.val none)
  | ProbeResult.calledProcessError =>
      ([Event.msg "Thorium browser is not installed or unable to get version."],
       ProbeOut.val none)
  | ProbeResult.fileNotFound =>
      ([Event.msg "Thorium browser is not installed."], ProbeOut.val none)

/-- The exit behaviour of the external package-manager commands: `env argv`
is `true` iff `subprocess.run(argv, check=True)` exits 0. -/
abbrev Env := List String → Bool

/-- `install_deb` (lines 50–61).  Primary: `sudo nala install <path>`.
On its failure (caught `CalledProcessError`): print, `sudo dpkg -i <path>`,
then `sudo nala install -f`; a failure of either fallback command escapes
as `CalledProcessError`. -/
def install_deb (env : Env) (file_path : String) : List Event × Outcome :=
  if env ["sudo", "nala", "install", file_path] then
    ([Event.run ["sudo", "nala", "install", file_path]], Outcome.ok)
  else if env ["sudo", "dpkg", "-i", file_path] then
    ([Event.run ["sudo", "nala", "install", file_path],
      Event.msg "Nala failed to install the package. Attempting with dpkg...",
      Event.run ["sudo", "dpkg", "-i", file_path],
      Event.run ["sudo", "nala", "install", "-f"]],
     if env ["sudo", "nala", "install", "-f"] then Outcome.ok
     else Outcome.exc "CalledProcessError")
  else
    ([Event.run ["sudo", "nala", "install", file_path],
      Event.msg "Nala failed to install the package. Attempting with dpkg...",
      Event.run ["sudo", "dpkg", "-i", file_path]],
     Outcome.exc "CalledProcessError")

/-- `remove_package` (lines 63–73).  Primary: `sudo nala remove <name>`;
on its failure, print and `sudo dpkg -r <name>`, whose own failure
escapes as `CalledProcessError`. -/
def remove_package (env : Env) (package_name : String) : List Event × Outcome :=
  if env ["sudo", "nala", "remove", package_name] then
    ([Event.run ["sudo", "nala", "remove", package_name]], Outcome.ok)
  else
    ([Event.run ["sudo", "nala", "remove", package_name],
      Event.msg "Nala failed to remove the package. Attempting with dpkg...",
      Event.run ["sudo", "dpkg", "-r", package_name]],
     if env ["sudo", "dpkg", "-r", package_name] then Outcome.ok
     else Outcome.exc "CalledProcessError")

/-- `download_file` (lines 75–91).  The filename is the URL's final path
segment; the file path is the join with the destination folder.  `ok`
models whether the streaming GET has success status (`raise_for_status`
raises otherwise); the request itself is performed either way. -/
def download_file (ok : Bool) (url destination_folder : String) :
    List Event × Option String :=
  ([Event.download url destination_folder],
   if ok then some (os_path_join destination_folder (pyLastSegment url))
   else none)

/-- One asset of the GitHub "latest release" JSON: its `name` and its
`browser_download_url` fields. -/
structure Asset where
  name : String
  browser_download_url : String
  deriving DecidableEq, Repr

/-- The `for asset in release_data.get('assets', [])` loop of
`get_latest_deb_release` (lines 108–111): the download URL of the first
asset whose name ends in `.deb`, else `None`. -/
def first_deb_asset : List Asset → Option String
  | [] => none
  | a :: rest =>
      if pyEndsWith a.name ".deb" then some a.browser_download_url
      else first_deb_asset rest

/-- `get_latest_deb_release` (lines 93–111), with the API response abstracted
to its status code and asset list.  Non-200: print a failure message and
return `None`; otherwise scan the assets in listed order. -/
def get_latest_deb_release (status : Nat) (assets : List Asset) :
    List Event × Option String :=
  if status ≠ 200 then
    ([Event.msg "Failed to fetch release data from GitHub API"], none)
  else ([], first_deb_asset assets)

/-- The hardcoded `destination_folder` of `main` (line 153). -/
def hardcoded_dest : String := "/home/kai/projects/renew-thorium"

/-- Python `f"...{v}..."` on an optional string: `None` prints as `"None"`. -/
def optStr : Option String → String
  | none => "None"
  | some s => s

/-- The three subcommands accepted by the argument parser. -/
inductive Command where
  | install
  | update
  | remove
  deriving DecidableEq, Repr

/-- Tail of `main` from the download onward (lines 154–156): if the GET
fails, `HTTPError` escapes; else install the downloaded file and on normal
return print `Installed <path>`. -/
def step4 (downloadOk : Bool) (latest_deb_url : String) (env : Env) :
    List Event × Outcome :=
  match (download_file downloadOk latest_deb_url hardcoded_dest).2 with
  | none => ([], Outcome.exc "HTTPError")
  | some downloaded_file =>
      match (install_deb env downloaded_file).2 with
      | Outcome.ok =>
          ((install_deb env downloaded_file).1
            ++ [Event.msgInstalled downloaded_file], Outcome.ok)
      | Outcome.exc e => ((install_deb env downloaded_file).1, Outcome.exc e)

/-- `main` from the version extraction onward (lines 144–156), given the
resolved asset URL.  `latest_version` extraction can raise `IndexError`;
equality with the installed version short-circuits with the
"already installed" message; on the update path the transition message is
printed first, then the URL line, then download and install. -/
def step3 (cmd : Command) (installed_version : Option String)
    (latest_deb_url : String) (downloadOk : Bool) (env : Env) :
    List Event × Outcome :=
  match extract_latest_version latest_deb_url with
  | none => ([], Outcome.exc "IndexError")
  | some latest_version =>
      if installed_version = some latest_version then
        ([Event.msgAlready latest_version], Outcome.ok)
      else
        ((if cmd = Command.update then
            [Event.msgUpdating (optStr installed_version) latest_version]
          else [])
          ++ [Event.msgUrl latest_deb_url]
          ++ (download_file downloadOk latest_deb_url hardcoded_dest).1
          ++ (step4 downloadOk latest_deb_url env).1,
         (step4 downloadOk latest_deb_url env).2)

/-- `main` from the update-requires-install guard onward (lines 135–156),
given the probed installed version.  `update` with nothing installed
prints a message and returns; a falsy resolved URL (absent, or the empty
string, which Python's `if not latest_deb_url` also treats as absent)
prints "No .deb release found" and returns. -/
def step2 (cmd : Command) (installed_version : Option String)
    (apiStatus : Nat) (assets : List Asset) (downloadOk : Bool) (env : Env) :
    List Event × Outcome :=
  if cmd = Command.update ∧ installed_version = none then
    ([Event.msg "Thorium is not installed. Use 'install' command to install it."],
     Outcome.ok)
  else
    match (get_latest_deb_release apiStatus assets).2 with
    | none =>
        ((get_latest_deb_release apiStatus assets).1
          ++ [Event.msg "No .deb release found"], Outcome.ok)
    | some latest_deb_url =>
        if latest_deb_url = "" then
          ((get_latest_deb_release apiStatus assets).1
            ++ [Event.msg "No .deb release found"], Outcome.ok)
        else
          ((get_latest_deb_release apiStatus assets).1
            ++ (step3 cmd installed_version latest_deb_url downloadOk env).1,
           (step3 cmd installed_version latest_deb_url downloadOk env).2)

/-- The `install`/`update` branch of `main` (lines 132–156): probe the
installed version (an escaping probe exception aborts the run), then
continue with `step2`. -/
def mainIU (cmd : Command) (probe : ProbeResult) (apiStatus : Nat)
    (assets : List Asset) (downloadOk : Bool) (env : Env) :
    List Event × Outcome :=
  match (get_installed_version probe).2 with
  | ProbeOut.err e => ((get_installed_version probe).1, Outcome.exc e)
  | ProbeOut.val installed_version =>
      ((get_installed_version probe).1
        ++ (step2 cmd installed_version apiStatus assets downloadOk env).1,
       (step2 cmd installed_version apiStatus assets downloadOk env).2)

/-- `main` (lines 113–159).  `tempDir` is the computed
`tempfile.gettempdir()` of line 130, never used afterwards.  `remove` goes
straight to `remove_package "thorium-browser"`; `install`/`update` go
through the probe/resolve/download/install pipeline. -/
def main (cmd : Command) (tempDir : String) (probe : ProbeResult)
    (apiStatus : Nat) (assets : List Asset) (downloadOk : Bool) (env : Env) :
    List Event × Outcome :=
  match cmd with
  | Command.remove => remove_package env "thorium-browser"
  | _ => mainIU cmd probe apiStatus assets downloadOk env

/-! ### Helper lemmas about the traces of the individual components -/

/-- `e` is the "already installed" message. -/
def isAlready : Event → Bool
  | Event.msgAlready _ => true
  | _ => false

/-- The version prober only prints; its trace holds no effectful event. -/
theorem get_installed_version_effect_free (p : ProbeResult) :
    ∀ e ∈ (get_installed_version p).1, isEffect e = false := by
  cases p <;> simp [get_installed_version, isEffect]

/-- The version prober never prints the "already installed" message. -/
theorem get_installed_version_not_already (p : ProbeResult) :
    ∀ e ∈ (get_installed_version p).1, isAlready e = false := by
  cases p <;> simp [get_installed_version, isAlready]

/-- The release resolver only prints; its trace holds no effectful event. -/
theorem get_latest_deb_release_effect_free (status : Nat) (assets : List Asset) :
    ∀ e ∈ (get_latest_deb_release status assets).1, isEffect e = false := by
  unfold get_latest_deb_release
  split <;> simp [isEffect]

/-- The release resolver never prints the "already installed" message. -/
theorem get_latest_deb_release_not_already (status : Nat) (assets : List Asset) :
    ∀ e ∈ (get_latest_deb_release status assets).1, isAlready e = false := by
  unfold get_latest_deb_release
  split <;> simp [isAlready]

/-- The installer never prints the "already installed" message. -/
theorem install_deb_not_already (env : Env) (fp : String) :
    ∀ e ∈ (install_deb env fp).1, isAlready e = false := by
  by_cases h1 : env ["sudo", "nala", "install", fp] = true <;>
    by_cases h2 : env ["sudo", "dpkg", "-i", fp] = true <;>
      simp [install_deb, h1, h2, isAlready]

/-- The installer's trace contains no download event. -/
theorem install_deb_no_download (env : Env) (fp : String) (u d : String) :
    Event.download u d ∉ (install_deb env fp).1 := by
  by_cases h1 : env ["sudo", "nala", "install", fp] = true <;>
    by_cases h2 : env ["sudo", "dpkg", "-i", fp] = true <;>
      simp [install_deb, h1, h2]

/-- The installer's first event is the primary `sudo nala install` run. -/
theorem install_deb_first_run (env : Env) (fp : String) :
    Event.run ["sudo", "nala", "install", fp] ∈ (install_deb env fp).1 := by
  by_cases h1 : env ["sudo", "nala", "install", fp] = true <;>
    by_cases h2 : env ["sudo", "dpkg", "-i", fp] = true <;>
      simp [install_deb, h1, h2]

/-- The remover's trace contains no download event. -/
theorem remove_package_no_download (env : Env) (n : String) (u d : String) :
    Event.download u d ∉ (remove_package env n).1 := by
  by_cases h1 : env ["sudo", "nala", "remove", n] = true <;>
    simp [remove_package, h1]

/-- `step4` never prints the "already installed" message. -/
theorem step4_not_already (downloadOk : Bool) (url : String) (env : Env) :
    ∀ e ∈ (step4 downloadOk url env).1, isAlready e = false := by
  intro e he
  unfold step4 at he
  cases downloadOk with
  | false => simp [download_file] at he
  | true =>
      simp only [download_file, if_true] at he
      rcases h : (install_deb env
          (os_path_join hardcoded_dest (pyLastSegment url))).2 with _ | ex <;>
        rw [h] at he
      · rcases List.mem_append.1 he with h1 | h2
        · exact install_deb_not_already env _ e h1
        · simp only [List.mem_singleton] at h2
          subst h2; rfl
      · exact install_deb_not_already env _ e he

/-- A download event in `step4`'s trace is impossible. -/
theorem step4_no_download (downloadOk : Bool) (url : String) (env : Env)
    (u d : String) : Event.download u d ∉ (step4 downloadOk url env).1 := by
  intro he
  unfold step4 at he
  cases downloadOk with
  | false => simp [download_file] at he
  | true =>
      simp only [download_file, if_true] at he
      rcases h : (install_deb env
          (os_path_join hardcoded_dest (pyLastSegment url))).2 with _ | ex <;>
        rw [h] at he
      · rcases List.mem_append.1 he with h1 | h2
        · exact install_deb_no_download env _ u d h1
        · simp at h2
      · exact install_deb_no_download env _ u d he

/-! ### Reduction lemmas for the dispatcher pipeline -/

/-- The `install` branch of `main` is the probe-then-continue pipeline. -/
theorem main_install_eq (tempDir : String) (probe : ProbeResult) (apiStatus : Nat)
    (assets : List Asset) (downloadOk : Bool) (env : Env) :
    main Command.install tempDir probe apiStatus assets downloadOk env
      = mainIU Command.install probe apiStatus assets downloadOk env := rfl

/-- The `update` branch of `main` is the probe-then-continue pipeline. -/
theorem main_update_eq (tempDir : String) (probe : ProbeResult) (apiStatus : Nat)
    (assets : List Asset) (downloadOk : Bool) (env : Env) :
    main Command.update tempDir probe apiStatus assets downloadOk env
      = mainIU Command.update probe apiStatus assets downloadOk env := rfl

/-- When the probe returns a value, `mainIU` prepends the probe's trace to
`step2`'s. -/
theorem mainIU_val (cmd : Command) (probe : ProbeResult) (apiStatus : Nat)
    (assets : List Asset) (downloadOk : Bool) (env : Env) (iv : Option String)
    (h : (get_installed_version probe).2 = ProbeOut.val iv) :
    mainIU cmd probe apiStatus assets downloadOk env
      = ((get_installed_version probe).1
          ++ (step2 cmd iv apiStatus assets downloadOk env).1,
         (step2 cmd iv apiStatus assets downloadOk env).2) := by
  unfold mainIU
  rw [h]

/-- When the update-guard does not fire and the resolver yields a non-empty
URL, `step2` continues with `step3`. -/
theorem step2_proceed (cmd : Command) (iv : Option String) (apiStatus : Nat)
    (assets : List Asset) (downloadOk : Bool) (env : Env) (url : String)
    (hno : ¬(cmd = Command.update ∧ iv = none))
    (hurl : (get_latest_deb_release apiStatus assets).2 = some url)
    (hne : url ≠ "") :
    step2 cmd iv apiStatus assets downloadOk env
      = ((get_latest_deb_release apiStatus assets).1
          ++ (step3 cmd iv url downloadOk env).1,
         (step3 cmd iv url downloadOk env).2) := by
  unfold step2
  rw [if_neg hno, hurl]
  exact if_neg hne

/-- When the update-guard does not fire and the resolver yields no URL,
`step2` prints the "no release" message and stops. -/
theorem step2_no_url (cmd : Command) (iv : Option String) (apiStatus : Nat)
    (assets : List Asset) (downloadOk : Bool) (env : Env)
    (hno : ¬(cmd = Command.update ∧ iv = none))
    (hurl : (get_latest_deb_release apiStatus assets).2 = none) :
    step2 cmd iv apiStatus assets downloadOk env
      = ((get_latest_deb_release apiStatus assets).1
          ++ [Event.msg "No .deb release found"], Outcome.ok) := by
  unfold step2
  rw [if_neg hno, hurl]

/-- When the extracted token equals the installed version, `step3` prints
"already installed" and stops. -/
theorem step3_already (cmd : Command) (url : String) (downloadOk : Bool)
    (env : Env) (v : String)
    (hver : extract_latest_version url = some v) :
    step3 cmd (some v) url downloadOk env
      = ([Event.msgAlready v], Outcome.ok) := by
  unfold step3
  rw [hver]
  exact if_pos rfl

/-- When the extracted token differs from the installed version, `step3`
proceeds with the URL line, the download and the install. -/
theorem step3_proceed (cmd : Command) (iv : Option String) (url : String)
    (downloadOk : Bool) (env : Env) (v : String)
    (hver : extract_latest_version url = some v) (hne : iv ≠ some v) :
    step3 cmd iv url downloadOk env
      = ((if cmd = Command.update then
            [Event.msgUpdating (optStr iv) v]
          else [])
          ++ [Event.msgUrl url]
          ++ (download_file downloadOk url hardcoded_dest).1
          ++ (step4 downloadOk url env).1,
         (step4 downloadOk url env).2) := by
  unfold step3
  rw [hver]
  exact if_neg hne

/-- `first_deb_asset` is the first-match scan the spec describes. -/
theorem first_deb_asset_eq_find (l : List Asset) :
    first_deb_asset l
      = (l.find? (fun a => pyEndsWith a.name ".deb")).map
          Asset.browser_download_url := by
  induction l with
  | nil => rfl
  | cons a rest ih =>
      by_cases h : pyEndsWith a.name ".deb" = true
      · simp [first_deb_asset, List.find?_cons, h]
      · simp only [Bool.not_eq_true] at h
        simp [first_deb_asset, List.find?_cons, h, ih]

/-! ### Concrete worlds used by the witnesses -/

/-- An environment in which every external command exits 0. -/
def envAllOk : Env := fun _ => true

/-- An environment in which every external command exits non-zero. -/
def envAllFail : Env := fun _ => false

/-- An environment in which exactly the primary install of `/x.deb` fails. -/
def envPrimaryFail : Env := fun argv =>
  decide (argv ≠ ["sudo", "nala", "install", "/x.deb"])

/-- A release asset list with no `.deb` member. -/
def assetsNoDeb : List Asset :=
  [{ name := "thorium.tar.gz",
     browser_download_url := "https://x.com/thorium.tar.gz" }]

/-- A release asset list whose sole member is the 1.2.3.4 `.deb` package. -/
def assetsV1234 : List Asset :=
  [{ name := "thorium_1.2.3.4_amd64.deb",
     browser_download_url := "https://x.com/thorium_1.2.3.4_amd64.deb" }]

/-! ### The claims -/

/-- C1: for `install` and `update`, if the probed installed version equals
the version token extracted from the resolved asset URL, `main` prints the
"already installed" message and returns normally without invoking the
downloader or the installer: its trace holds no download and no subprocess
event. -/
theorem c1_already_installed_no_download_no_install
    (cmd : Command) (tempDir : String) (probe : ProbeResult) (apiStatus : Nat)
    (assets : List Asset) (downloadOk : Bool) (env : Env) (v url : String)
    (hcmd : cmd = Command.install ∨ cmd = Command.update)
    (hprobe : (get_installed_version probe).2 = ProbeOut.val (some v))
    (hurl : (get_latest_deb_release apiStatus assets).2 = some url)
    (hne : url ≠ "")
    (hver : extract_latest_version url = some v) :
    Event.msgAlready v ∈ (main cmd tempDir probe apiStatus assets downloadOk env).1 ∧
    (main cmd tempDir probe apiStatus assets downloadOk env).2 = Outcome.ok ∧
    ∀ e ∈ (main cmd tempDir probe apiStatus assets downloadOk env).1,
      isEffect e = false := by
  have hno : ¬(cmd = Command.update ∧ (some v : Option String) = none) := by
    rintro ⟨-, h⟩
    exact Option.noConfusion h
  have hmain : main cmd tempDir probe apiStatus assets downloadOk env
      = ((get_installed_version probe).1
          ++ ((get_latest_deb_release apiStatus assets).1
              ++ [Event.msgAlready v]),
         Outcome.ok) := by
    rcases hcmd with h | h <;> subst h
    · rw [main_install_eq, mainIU_val _ _ _ _ _ _ _ hprobe,
        step2_proceed _ _ _ _ _ _ _ hno hurl hne,
        step3_already _ _ _ _ _ hver]
    · rw [main_update_eq, mainIU_val _ _ _ _ _ _ _ hprobe,
        step2_proceed _ _ _ _ _ _ _ hno hurl hne,
        step3_already _ _ _ _ _ hver]
  rw [hmain]
  refine ⟨by simp, rfl, ?_⟩
  intro e he
  rcases List.mem_append.1 he with h1 | h2
  · exact get_installed_version_effect_free probe e h1
  · rcases List.mem_append.1 h2 with h3 | h4
    · exact get_latest_deb_release_effect_free apiStatus assets e h3
    · simp only [List.mem_singleton] at h4
      subst h4
      rfl

/-- C1 witness: installed 1.2.3.4, resolved asset 1.2.3.4. -/
theorem c1_witness :
    Event.msgAlready "1.2.3.4"
      ∈ (main Command.install "/tmp" (ProbeResult.ok "Thorium 1.2.3.4 stable")
          200 assetsV1234 true envAllOk).1 ∧
    (main Command.install "/tmp" (ProbeResult.ok "Thorium 1.2.3.4 stable")
        200 assetsV1234 true envAllOk).2 = Outcome.ok := by
  have h := c1_already_installed_no_download_no_install Command.install "/tmp"
    (ProbeResult.ok "Thorium 1.2.3.4 stable") 200 assetsV1234 true envAllOk
    "1.2.3.4" "https://x.com/thorium_1.2.3.4_amd64.deb"
    (Or.inl rfl) (by decide) (by decide) (by decide) (by decide)
  exact ⟨h.1, h.2.1⟩

/-- C2: `update` with no installed version prints the "install first"
message and stops: its trace holds no download and no subprocess event, and
its result does not depend on the release API response, the download
outcome or the package-manager environment. -/
theorem c2_update_not_installed_aborts
    (tempDir : String) (probe : ProbeResult) (apiStatus : Nat)
    (assets : List Asset) (downloadOk : Bool) (env : Env)
    (hprobe : (get_installed_version probe).2 = ProbeOut.val none) :
    main Command.update tempDir probe apiStatus assets downloadOk env
      = ((get_installed_version probe).1
          ++ [Event.msg "Thorium is not installed. Use 'install' command to install it."],
         Outcome.ok) ∧
    (∀ e ∈ (main Command.update tempDir probe apiStatus assets downloadOk env).1,
        isEffect e = false) ∧
    (∀ (apiStatus' : Nat) (assets' : List Asset) (downloadOk' : Bool) (env' : Env),
        main Command.update tempDir probe apiStatus' assets' downloadOk' env'
          = main Command.update tempDir probe apiStatus assets downloadOk env) := by
  have key : ∀ (s : Nat) (a : List Asset) (d : Bool) (ev : Env),
      main Command.update tempDir probe s a d ev
        = ((get_installed_version probe).1
            ++ [Event.msg "Thorium is not installed. Use 'install' command to install it."],
           Outcome.ok) := by
    intro s a d ev
    rw [main_update_eq, mainIU_val _ _ _ _ _ _ _ hprobe]
    unfold step2
    rw [if_pos ⟨rfl, rfl⟩]
  refine ⟨key _ _ _ _, ?_,
    fun s' a' d' e' => (key s' a' d' e').trans (key _ _ _ _).symm⟩
  rw [key apiStatus assets downloadOk env]
  intro e he
  rcases List.mem_append.1 he with h1 | h2
  · exact get_installed_version_effect_free probe e h1
  · simp only [List.mem_singleton] at h2
    subst h2
    rfl

/-- C2 witness: a failing probe (non-zero exit) on the update path. -/
theorem c2_witness :
    main Command.update "/tmp" ProbeResult.calledProcessError 200 assetsV1234
        true envAllOk
      = ([Event.msg "Thorium browser is not installed or unable to get version.",
          Event.msg "Thorium is not installed. Use 'install' command to install it."],
         Outcome.ok) := by
  have h := c2_update_not_installed_aborts "/tmp" ProbeResult.calledProcessError
    200 assetsV1234 true envAllOk (by decide)
  simpa [get_installed_version] using h.1

/-- C3: the release resolver returns the URL of the first listed asset whose
name ends in `.deb`; it returns absent on a non-200 status and when no asset
name matches; and when it returns absent the dispatcher prints
"No .deb release found" and stops without any download or subprocess
event. -/
theorem c3_release_resolver_first_deb
    (cmd : Command) (tempDir : String) (probe : ProbeResult) (apiStatus : Nat)
    (assets : List Asset) (downloadOk : Bool) (env : Env) (iv : Option String)
    (hcmd : cmd = Command.install ∨ cmd = Command.update)
    (hprobe : (get_installed_version probe).2 = ProbeOut.val iv)
    (hno : ¬(cmd = Command.update ∧ iv = none)) :
    (apiStatus ≠ 200 → (get_latest_deb_release apiStatus assets).2 = none) ∧
    ((get_latest_deb_release 200 assets).2
       = (assets.find? (fun a => pyEndsWith a.name ".deb")).map
           Asset.browser_download_url) ∧
    ((∀ a ∈ assets, pyEndsWith a.name ".deb" = false) →
       (get_latest_deb_release 200 assets).2 = none) ∧
    ((get_latest_deb_release apiStatus assets).2 = none →
       Event.msg "No .deb release found"
         ∈ (main cmd tempDir probe apiStatus assets downloadOk env).1 ∧
       (main cmd tempDir probe apiStatus assets downloadOk env).2 = Outcome.ok ∧
       ∀ e ∈ (main cmd tempDir probe apiStatus assets downloadOk env).1,
         isEffect e = false) := by
  refine ⟨?_, ?_, ?_, ?_⟩
  · intro h
    simp [get_latest_deb_release, h]
  · simp [get_latest_deb_release, first_deb_asset_eq_find]
  · intro h
    have hf : assets.find? (fun a => pyEndsWith a.name ".deb") = none :=
      List.find?_eq_none.2 (fun x hx => by rw [h x hx]; exact Bool.false_ne_true)
    simp [get_latest_deb_release, first_deb_asset_eq_find, hf]
  · intro h
    have hmain : main cmd tempDir probe apiStatus assets downloadOk env
        = ((get_installed_version probe).1
            ++ ((get_latest_deb_release apiStatus assets).1
                ++ [Event.msg "No .deb release found"]),
           Outcome.ok) := by
      rcases hcmd with hc | hc <;> subst hc
      · rw [main_install_eq, mainIU_val _ _ _ _ _ _ _ hprobe,
          step2_no_url _ _ _ _ _ _ hno h]
      · rw [main_update_eq, mainIU_val _ _ _ _ _ _ _ hprobe,
          step2_no_url _ _ _ _ _ _ hno h]
    rw [hmain]
    refine ⟨by simp, rfl, ?_⟩
    intro e he
    rcases List.mem_append.1 he with h1 | h2
    · exact get_installed_version_effect_free probe e h1
    · rcases List.mem_append.1 h2 with h3 | h4
      · exact get_latest_deb_release_effect_free apiStatus assets e h3
      · simp only [List.mem_singleton] at h4
        subst h4
        rfl

/-- C3 witness: an asset list with no `.deb` member aborts the install
flow with the "No .deb release found" message. -/
theorem c3_witness :
    (get_latest_deb_release 200 assetsNoDeb).2 = none ∧
    Event.msg "No .deb release found"
      ∈ (main Command.install "/tmp" ProbeResult.fileNotFound 200 assetsNoDeb
          true envAllOk).1 := by
  have h := c3_release_resolver_first_deb Command.install "/tmp"
    ProbeResult.fileNotFound 200 assetsNoDeb true envAllOk none
    (Or.inl rfl) (by decide) (by simp)
  exact ⟨by decide, (h.2.2.2 (by decide)).1⟩

/-- C4 counterexample: the probe output `"Thorium"` starts with the product
name but splits into a single field.  The claim says the prober returns
`None` without raising there, but `version_line.split()[1]` raises an
uncaught `IndexError`. -/
theorem c4_counterexample :
    (get_installed_version (ProbeResult.ok "Thorium")).2 ≠ ProbeOut.val none ∧
    (get_installed_version (ProbeResult.ok "Thorium")).2
      = ProbeOut.err "IndexError" := by
  exact ⟨by decide, by decide⟩

/-- C4 (amended): the prober returns the second whitespace field when the
stripped output starts with `"Thorium"` and splits into at least two
fields; it returns `None` when the output does not start with `"Thorium"`
and on both probe subprocess failures; but when the output starts with
`"Thorium"` and has fewer than two fields, an uncaught `IndexError`
escapes instead of `None`. -/
theorem c4_version_prober_amended (out : String) :
    (pyStartsWith (pyStrip out) "Thorium" = true →
       2 ≤ (pySplitWs (pyStrip out)).length →
       (get_installed_version (ProbeResult.ok out)).2
           = ProbeOut.val ((pySplitWs (pyStrip out)).get? 1) ∧
         ((pySplitWs (pyStrip out)).get? 1).isSome = true) ∧
    (pyStartsWith (pyStrip out) "Thorium" = false →
       (get_installed_version (ProbeResult.ok out)).2 = ProbeOut.val none) ∧
    (pyStartsWith (pyStrip out) "Thorium" = true →
       (pySplitWs (pyStrip out)).length < 2 →
       (get_installed_version (ProbeResult.ok out)).2
         = ProbeOut.err "IndexError") ∧
    (get_installed_version ProbeResult.calledProcessError).2 = ProbeOut.val none ∧
    (get_installed_version ProbeResult.fileNotFound).2 = ProbeOut.val none := by
  refine ⟨?_, ?_, ?_, rfl, rfl⟩
  · intro hs hl
    rcases hv : (pySplitWs (pyStrip out)).get? 1 with _ | v
    · rw [List.get?_eq_none] at hv
      omega
    · refine ⟨?_, rfl⟩
      simp only [get_installed_version]
      rw [if_pos hs, hv]
  · intro hs
    simp [get_installed_version, hs]
  · intro hs hl
    have hn : (pySplitWs (pyStrip out)).get? 1 = none := by
      rw [List.get?_eq_none]
      omega
    simp only [get_installed_version]
    rw [if_pos hs, hn]

/-- C4 witness: a well-formed probe output yields its second field. -/
theorem c4_witness :
    (get_installed_version (ProbeResult.ok "Thorium 123.0.6312.133 stable")).2
        = ProbeOut.val ((pySplitWs (pyStrip "Thorium 123.0.6312.133 stable")).get? 1) ∧
      ((pySplitWs (pyStrip "Thorium 123.0.6312.133 stable")).get? 1).isSome = true :=
  (c4_version_prober_amended "Thorium 123.0.6312.133 stable").1 (by decide) (by decide)

/-- C5 counterexample: when the primary install and the dpkg force-install
both fail, the fix-broken invocation `sudo nala install -f` is absent from
the trace, contrary to the claim that a failing primary is always followed
by exactly one force-install and then one fix-broken call. -/
theorem c5_counterexample :
    envAllFail ["sudo", "nala", "install", "/x.deb"] = false ∧
    Event.run ["sudo", "nala", "install", "-f"]
      ∉ (install_deb envAllFail "/x.deb").1 := by
  exact ⟨rfl, by decide⟩

/-- C5 (amended): if the primary install succeeds, neither fallback call
occurs; if it fails, exactly one dpkg force-install on the same file path
follows, and the fix-broken invocation follows it exactly once when the
force-install succeeds — when the force-install also fails, the fix-broken
invocation does not occur. -/
theorem c5_install_fallback_amended (env : Env) (fp : String) :
    (env ["sudo", "nala", "install", fp] = true →
       install_deb env fp
         = ([Event.run ["sudo", "nala", "install", fp]], Outcome.ok)) ∧
    (env ["sudo", "nala", "install", fp] = false →
       env ["sudo", "dpkg", "-i", fp] = true →
       install_deb env fp
         = ([Event.run ["sudo", "nala", "install", fp],
             Event.msg "Nala failed to install the package. Attempting with dpkg...",
             Event.run ["sudo", "dpkg", "-i", fp],
             Event.run ["sudo", "nala", "install", "-f"]],
            if env ["sudo", "nala", "install", "-f"] then Outcome.ok
            else Outcome.exc "CalledProcessError")) ∧
    (env ["sudo", "nala", "install", fp] = false →
       env ["sudo", "dpkg", "-i", fp] = false →
       install_deb env fp
         = ([Event.run ["sudo", "nala", "install", fp],
             Event.msg "Nala failed to install the package. Attempting with dpkg...",
             Event.run ["sudo", "dpkg", "-i", fp]],
            Outcome.exc "CalledProcessError")) := by
  refine ⟨?_, ?_, ?_⟩ <;> intro h1 <;> try intro h2
  · simp [install_deb, h1]
  · simp [install_deb, h1, h2]
  · simp [install_deb, h1, h2]

/-- C5 witness: primary fails, force-install and fix-broken succeed. -/
theorem c5_witness :
    envPrimaryFail ["sudo", "nala", "install", "/x.deb"] = false ∧
    install_deb envPrimaryFail "/x.deb"
      = ([Event.run ["sudo", "nala", "install", "/x.deb"],
          Event.msg "Nala failed to install the package. Attempting with dpkg...",
          Event.run ["sudo", "dpkg", "-i", "/x.deb"],
          Event.run ["sudo", "nala", "install", "-f"]],
         Outcome.ok) := by
  refine ⟨rfl, ?_⟩
  have h := (c5_install_fallback_amended envPrimaryFail "/x.deb").2.1 rfl rfl
  simpa using h

/-- C6: the `remove` command goes straight to `remove_package` on the
hardcoded name `thorium-browser` — its first action is the primary nala
remove, its behaviour is independent of the version probe — and when the
primary remove fails the trace is exactly the primary run, the fallback
message and one dpkg remove of the same name. -/
theorem c6_remove_fixed_name_no_probe
    (tempDir : String) (probe : ProbeResult) (apiStatus : Nat)
    (assets : List Asset) (downloadOk : Bool) (env : Env) :
    main Command.remove tempDir probe apiStatus assets downloadOk env
      = remove_package env "thorium-browser" ∧
    (main Command.remove tempDir probe apiStatus assets downloadOk env).1.head?
      = some (Event.run ["sudo", "nala", "remove", "thorium-browser"]) ∧
    (∀ (probe' : ProbeResult),
        main Command.remove tempDir probe' apiStatus assets downloadOk env
          = main Command.remove tempDir probe apiStatus assets downloadOk env) ∧
    (env ["sudo", "nala", "remove", "thorium-browser"] = false →
        (main Command.remove tempDir probe apiStatus assets downloadOk env).1
          = [Event.run ["sudo", "nala", "remove", "thorium-browser"],
             Event.msg "Nala failed to remove the package. Attempting with dpkg...",
             Event.run ["sudo", "dpkg", "-r", "thorium-browser"]]) := by
  refine ⟨rfl, ?_, fun probe' => rfl, ?_⟩
  · by_cases h : env ["sudo", "nala", "remove", "thorium-browser"] = true <;>
      simp [main, remove_package, h]
  · intro h
    simp [main, remove_package, h]

/-- C6 witness: both removers fail; the trace is still exactly the primary
run, the fallback message and the single dpkg remove. -/
theorem c6_witness :
    (main Command.remove "/tmp" ProbeResult.fileNotFound 200 assetsV1234 true
        envAllFail).1
      = [Event.run ["sudo", "nala", "remove", "thorium-browser"],
         Event.msg "Nala failed to remove the package. Attempting with dpkg...",
         Event.run ["sudo", "dpkg", "-r", "thorium-browser"]] :=
  (c6_remove_fixed_name_no_probe "/tmp" ProbeResult.fileNotFound 200 assetsV1234
    true envAllFail).2.2.2 rfl

/-- C7: the version extraction of line 144 is unguarded — on a resolved
asset URL whose final path segment holds no underscore, extraction yields
no token and the dispatcher dies with an uncaught `IndexError` instead of a
structured error. -/
theorem c7_unguarded_version_extraction :
    extract_latest_version "https://example.com/thorium.deb" = none ∧
    main Command.install "/tmp" ProbeResult.fileNotFound 200
        [{ name := "thorium.deb",
           browser_download_url := "https://example.com/thorium.deb" }]
        true envAllOk
      = ([Event.msg "Thorium browser is not installed."],
         Outcome.exc "IndexError") := by
  exact ⟨by decide, by decide⟩

/-- When the download succeeds, `step4`'s trace holds the primary install
invocation on the downloaded file path. -/
theorem step4_true_trace (url : String) (env : Env) :
    Event.run ["sudo", "nala", "install",
        os_path_join hardcoded_dest (pyLastSegment url)]
      ∈ (step4 true url env).1 := by
  unfold step4
  simp only [download_file, if_true]
  rcases h : (install_deb env
      (os_path_join hardcoded_dest (pyLastSegment url))).2 with _ | ex
  · exact List.mem_append.2 (Or.inl (install_deb_first_run env _))
  · exact install_deb_first_run env _

/-- Any download event in `step3`'s trace targets the hardcoded folder. -/
theorem step3_download_dest (cmd : Command) (iv : Option String) (url : String)
    (downloadOk : Bool) (env : Env) (u d : String)
    (h : Event.download u d ∈ (step3 cmd iv url downloadOk env).1) :
    d = hardcoded_dest := by
  rcases hv : extract_latest_version url with _ | v
  · have hstep : step3 cmd iv url downloadOk env = ([], Outcome.exc "IndexError") := by
      unfold step3
      rw [hv]
    rw [hstep] at h
    simp at h
  · by_cases hiv : iv = some v
    · subst hiv
      rw [step3_already _ _ _ _ _ hv] at h
      simp at h
    · rw [step3_proceed _ _ _ _ _ _ hv hiv] at h
      rcases List.mem_append.1 h with h1 | h2
      · rcases List.mem_append.1 h1 with h3 | h4
        · rcases List.mem_append.1 h3 with h5 | h6
          · split at h5 <;> simp at h5
          · simp at h6
        · simp only [download_file, List.mem_singleton, Event.download.injEq] at h4
          exact h4.2
      · exact absurd h2 (step4_no_download downloadOk url env u d)

/-- Any download event in `step2`'s trace targets the hardcoded folder. -/
theorem step2_download_dest (cmd : Command) (iv : Option String)
    (apiStatus : Nat) (assets : List Asset) (downloadOk : Bool) (env : Env)
    (u d : String)
    (h : Event.download u d ∈ (step2 cmd iv apiStatus assets downloadOk env).1) :
    d = hardcoded_dest := by
  unfold step2 at h
  split at h
  · simp at h
  · split at h
    · rcases List.mem_append.1 h with h1 | h2
      · have := get_latest_deb_release_effect_free apiStatus assets _ h1
        simp [isEffect] at this
      · simp at h2
    · split at h
      · rcases List.mem_append.1 h with h1 | h2
        · have := get_latest_deb_release_effect_free apiStatus assets _ h1
          simp [isEffect] at this
        · simp at h2
      · rcases List.mem_append.1 h with h1 | h2
        · have := get_latest_deb_release_effect_free apiStatus assets _ h1
          simp [isEffect] at this
        · exact step3_download_dest _ _ _ _ _ _ _ h2

/-- Any download event in `main`'s trace targets the hardcoded folder. -/
theorem main_download_dest (cmd : Command) (tempDir : String)
    (probe : ProbeResult) (apiStatus : Nat) (assets : List Asset)
    (downloadOk : Bool) (env : Env) (u d : String)
    (h : Event.download u d
        ∈ (main cmd tempDir probe apiStatus assets downloadOk env).1) :
    d = hardcoded_dest := by
  cases cmd with
  | remove => exact absurd h (remove_package_no_download env _ u d)
  | install =>
      rw [main_install_eq] at h
      unfold mainIU at h
      split at h
      · exact absurd (get_installed_version_effect_free probe _ h) (by simp [isEffect])
      · rcases List.mem_append.1 h with h1 | h2
        · exact absurd (get_installed_version_effect_free probe _ h1) (by simp [isEffect])
        · exact step2_download_dest _ _ _ _ _ _ _ _ h2
  | update =>
      rw [main_update_eq] at h
      unfold mainIU at h
      split at h
      · exact absurd (get_installed_version_effect_free probe _ h) (by simp [isEffect])
      · rcases List.mem_append.1 h with h1 | h2
        · exact absurd (get_installed_version_effect_free probe _ h1) (by simp [isEffect])
        · exact step2_download_dest _ _ _ _ _ _ _ _ h2

/-- C8: every download event of every run targets the fixed hardcoded
destination folder; the file path returned by the downloader is that folder
joined with the URL's final path segment; and the computed system temp
directory has no influence on the run at all. -/
theorem c8_fixed_download_destination (cmd : Command) (tempDir : String)
    (probe : ProbeResult) (apiStatus : Nat) (assets : List Asset)
    (downloadOk : Bool) (env : Env) :
    (∀ u d, Event.download u d
        ∈ (main cmd tempDir probe apiStatus assets downloadOk env).1 →
        d = "/home/kai/projects/renew-thorium") ∧
    (∀ (ok : Bool) (url dest p : String),
        (download_file ok url dest).2 = some p →
        p = os_path_join dest (pyLastSegment url)) ∧
    (∀ tempDir', main cmd tempDir' probe apiStatus assets downloadOk env
        = main cmd tempDir probe apiStatus assets downloadOk env) := by
  refine ⟨?_, ?_, ?_⟩
  · intro u d h
    exact main_download_dest cmd tempDir probe apiStatus assets downloadOk env u d h
  · intro ok url dest p h
    cases ok with
    | false => simp [download_file] at h
    | true =>
        simp [download_file] at h
        exact h.symm
  · intro tempDir'
    cases cmd <;> rfl

/-- C8 witness: a concrete install run downloads into the hardcoded
folder. -/
theorem c8_witness :
    Event.download "https://x.com/thorium_1.2.3.4_amd64.deb"
        "/home/kai/projects/renew-thorium"
      ∈ (main Command.install "/tmp" ProbeResult.fileNotFound 200 assetsV1234
          true envAllOk).1 ∧
    ("/home/kai/projects/renew-thorium" : String)
      = "/home/kai/projects/renew-thorium" := by
  refine ⟨by decide, ?_⟩
  exact (c8_fixed_download_destination Command.install "/tmp"
      ProbeResult.fileNotFound 200 assetsV1234 true envAllOk).1
    "https://x.com/thorium_1.2.3.4_amd64.deb" "/home/kai/projects/renew-thorium"
    (by decide)

/-- C9: on the `install` path with nothing installed and a resolved asset
URL, the equality test against the extracted token never fires: the
"already installed" message is never printed, the package download is
performed, and — when the download succeeds — the installer's primary
invocation runs on the downloaded file path. -/
theorem c9_fresh_install_always_proceeds
    (tempDir : String) (probe : ProbeResult) (apiStatus : Nat)
    (assets : List Asset) (downloadOk : Bool) (env : Env) (url v : String)
    (hprobe : (get_installed_version probe).2 = ProbeOut.val none)
    (hurl : (get_latest_deb_release apiStatus assets).2 = some url)
    (hne : url ≠ "")
    (hver : extract_latest_version url = some v) :
    (∀ w, Event.msgAlready w
        ∉ (main Command.install tempDir probe apiStatus assets downloadOk env).1) ∧
    Event.download url hardcoded_dest
      ∈ (main Command.install tempDir probe apiStatus assets downloadOk env).1 ∧
    Event.run ["sudo", "nala", "install",
        os_path_join hardcoded_dest (pyLastSegment url)]
      ∈ (main Command.install tempDir probe apiStatus assets true env).1 := by
  have hno : ¬(Command.install = Command.update ∧ (none : Option String) = none) := by
    rintro ⟨h, -⟩
    exact Command.noConfusion h
  have hivne : (none : Option String) ≠ some v := by
    intro h
    exact Option.noConfusion h
  have hred : ∀ (dOk : Bool),
      main Command.install tempDir probe apiStatus assets dOk env
        = ((get_installed_version probe).1
            ++ ((get_latest_deb_release apiStatus assets).1
                ++ (([] : List Event)
                    ++ [Event.msgUrl url]
                    ++ (download_file dOk url hardcoded_dest).1
                    ++ (step4 dOk url env).1)),
           (step4 dOk url env).2) := by
    intro dOk
    rw [main_install_eq, mainIU_val _ _ _ _ _ _ _ hprobe,
      step2_proceed _ _ _ _ _ _ _ hno hurl hne,
      step3_proceed _ _ _ _ _ _ hver hivne]
    rfl
  refine ⟨?_, ?_, ?_⟩
  · intro w hw
    rw [hred downloadOk] at hw
    rcases List.mem_append.1 hw with h1 | h2
    · have := get_installed_version_not_already probe _ h1
      simp [isAlready] at this
    · rcases List.mem_append.1 h2 with h3 | h4
      · have := get_latest_deb_release_not_already apiStatus assets _ h3
        simp [isAlready] at this
      · rcases List.mem_append.1 h4 with h5 | h6
        · rcases List.mem_append.1 h5 with h7 | h8
          · rcases List.mem_append.1 h7 with h9 | h10
            · simp at h9
            · simp at h10
          · simp [download_file] at h8
        · have := step4_not_already downloadOk url env _ h6
          simp [isAlready] at this
  · rw [hred downloadOk]
    simp [download_file]
  · rw [hred true]
    refine List.mem_append.2 (Or.inr ?_)
    refine List.mem_append.2 (Or.inr ?_)
    refine List.mem_append.2 (Or.inr ?_)
    exact step4_true_trace url env

/-- C9 witness: nothing installed, 1.2.3.4 resolved; download and primary
install both occur. -/
theorem c9_witness :
    Event.download "https://x.com/thorium_1.2.3.4_amd64.deb" hardcoded_dest
      ∈ (main Command.install "/tmp" ProbeResult.calledProcessError 200
          assetsV1234 true envAllOk).1 ∧
    Event.run ["sudo", "nala", "install",
        os_path_join hardcoded_dest
          (pyLastSegment "https://x.com/thorium_1.2.3.4_amd64.deb")]
      ∈ (main Command.install "/tmp" ProbeResult.calledProcessError 200
          assetsV1234 true envAllOk).1 := by
  have h := c9_fresh_install_always_proceeds "/tmp" ProbeResult.calledProcessError
    200 assetsV1234 true envAllOk "https://x.com/thorium_1.2.3.4_amd64.deb"
    "1.2.3.4" (by decide) (by decide) (by decide) (by decide)
  exact ⟨h.2.1, h.2.2⟩

/-- C10: when the primary install fails and the dpkg force-install also
fails, the trace is exactly the two failed invocations with the fallback
message between them, the fix-broken invocation never occurs after the
primary attempt, and the failure escapes to the caller as an uncaught
`CalledProcessError`. -/
theorem c10_dpkg_failure_skips_fix (env : Env) (fp : String)
    (h1 : env ["sudo", "nala", "install", fp] = false)
    (h2 : env ["sudo", "dpkg", "-i", fp] = false) :
    (install_deb env fp).1
      = [Event.run ["sudo", "nala", "install", fp],
         Event.msg "Nala failed to install the package. Attempting with dpkg...",
         Event.run ["sudo", "dpkg", "-i", fp]] ∧
    (install_deb env fp).2 = Outcome.exc "CalledProcessError" ∧
    Event.run ["sudo", "nala", "install", "-f"]
      ∉ ((install_deb env fp).1.drop 1) := by
  refine ⟨?_, ?_, ?_⟩
  · simp [install_deb, h1, h2]
  · simp [install_deb, h1, h2]
  · simp [install_deb, h1, h2]

/-- C10 witness: both install commands fail; the fix-broken call is skipped
and the error propagates. -/
theorem c10_witness :
    (install_deb envAllFail "/x.deb").1
      = [Event.run ["sudo", "nala", "install", "/x.deb"],
         Event.msg "Nala failed to install the package. Attempting with dpkg...",
         Event.run ["sudo", "dpkg", "-i", "/x.deb"]] ∧
    (install_deb envAllFail "/x.deb").2 = Outcome.exc "CalledProcessError" := by
  have h := c10_dpkg_failure_skips_fix envAllFail "/x.deb" rfl rfl
  exact ⟨h.1, h.2.1⟩

end ManageThorium
